import Mathlib

/-!
Shallow embedding of the `transformation-matrix-js` repository
(`src/math.ts` and `src/matrix.ts`) over exact real arithmetic, together
with theorems settling the specification claims.

Conventions of the embedding:
* the TypeScript `number` type is modelled by `ℝ`; `Math.sin`, `Math.cos`,
  `Math.asin`, `Math.acos`, `Math.atan2`, `Math.sqrt` become `Real.sin`,
  `Real.cos`, `Real.arcsin`, `Real.arccos`, `atan2` (defined below) and
  `Real.sqrt`;
* the 16-entry column-major `elements` array of the `Matrix` class becomes a
  structure with fields `e0` … `e15` (field `ei` is `this.elements[i]`);
* a method that can mutate the receiver is a function returning a pair
  `(receiver state after the call, method result)`; a method that throws
  returns an `Except String` value, and since every `throw` in the source
  happens before any assignment, the receiver component is the unchanged
  input state on the error path;
* `EulerOrder` is a string-literal union in the source, so rotation orders
  are modelled as `String` and matched with the same literal comparisons as
  the `if` chains of the source.
-/

namespace TMJS

noncomputable section

/-- `degrees` from `src/math.ts`: radians to degrees. -/
def degrees (r : ℝ) : ℝ := r * (180 / Real.pi)

/-- `radians` from `src/math.ts`: degrees to radians. -/
def radians (d : ℝ) : ℝ := d * (Real.pi / 180)

/-- `clamp` from `src/math.ts`: `Math.max(min, Math.min(max, value))`. -/
def clamp (value mn mx : ℝ) : ℝ := max mn (min mx value)

/-- JavaScript `Math.round`: rounds to the nearest integer, halves toward
positive infinity, i.e. `⌊x + 1/2⌋`. -/
def jsMathRound (x : ℝ) : ℝ := (⌊x + 1 / 2⌋ : ℤ)

/-- `round` from `src/math.ts`.  The source shifts the decimal point by
`scale` digits through string manipulation, applies `Math.round` and shifts
back; over exact reals this is `⌊num·10^scale + 1/2⌋ / 10^scale`. -/
def round (num : ℝ) (scale : ℕ) : ℝ := jsMathRound (num * 10 ^ scale) / 10 ^ scale

/-- JavaScript `Math.atan2(y, x)`: the angle of the point `(x, y)` in
`(-π, π]`, via the usual piecewise `arctan` definition (signed zeros do not
exist over `ℝ`, so `atan2 0 x = π` for `x < 0` and `atan2 0 0 = 0`). -/
def atan2 (y x : ℝ) : ℝ :=
  if 0 < x then Real.arctan (y / x)
  else if x < 0 then
    (if 0 ≤ y then Real.arctan (y / x) + Real.pi else Real.arctan (y / x) - Real.pi)
  else
    (if 0 < y then Real.pi / 2 else if y < 0 then -(Real.pi / 2) else 0)

/-- The `Matrix` class of `src/matrix.ts`: sixteen column-major elements,
field `ei` standing for `this.elements[i]`. -/
@[ext]
structure Matrix where
  e0 : ℝ
  e1 : ℝ
  e2 : ℝ
  e3 : ℝ
  e4 : ℝ
  e5 : ℝ
  e6 : ℝ
  e7 : ℝ
  e8 : ℝ
  e9 : ℝ
  e10 : ℝ
  e11 : ℝ
  e12 : ℝ
  e13 : ℝ
  e14 : ℝ
  e15 : ℝ

namespace Matrix

/-- The initial `elements` of a `new Matrix()`: the 4×4 identity. -/
def identity : Matrix :=
  ⟨1, 0, 0, 0,
   0, 1, 0, 0,
   0, 0, 1, 0,
   0, 0, 0, 1⟩

/-- `toArray` (and `getElements`): a fresh flat copy of the elements. -/
def toArray (m : Matrix) : List ℝ :=
  [m.e0, m.e1, m.e2, m.e3, m.e4, m.e5, m.e6, m.e7,
   m.e8, m.e9, m.e10, m.e11, m.e12, m.e13, m.e14, m.e15]

/-- `setFromMatrixArray`: replace all elements from a flat 16-entry
column-major array. -/
def setFromMatrixArray (_ : Matrix) (l : List ℝ) : Matrix :=
  ⟨l.getD 0 0, l.getD 1 0, l.getD 2 0, l.getD 3 0,
   l.getD 4 0, l.getD 5 0, l.getD 6 0, l.getD 7 0,
   l.getD 8 0, l.getD 9 0, l.getD 10 0, l.getD 11 0,
   l.getD 12 0, l.getD 13 0, l.getD 14 0, l.getD 15 0⟩

/-- `clone`: `new Matrix().setFromMatrixArray(this.toArray())`. -/
def clone (m : Matrix) : Matrix := setFromMatrixArray identity m.toArray

/-- `setPosition`: overwrite elements 12, 13, 14 and return the receiver. -/
def setPosition (m : Matrix) (x y z : ℝ) : Matrix :=
  { m with e12 := x, e13 := y, e14 := z }

/-- `setRotation` from `src/matrix.ts`: fill the rotation block from Euler
angles in degrees, branch by branch as in the source.  The result is
`(receiver after the call, returned value or thrown error)`; every
successful branch returns the mutated receiver, and the final `throw`
happens before any element is assigned, so the receiver is unchanged on the
error path. -/
def setRotation (m : Matrix) (x y z : ℝ) (order : String) :
    Matrix × Except String Matrix :=
  let x := radians x
  let y := radians y
  let z := radians z
  let cx := Real.cos x
  let sx := Real.sin x
  let cy := Real.cos y
  let sy := Real.sin y
  let cz := Real.cos z
  let sz := Real.sin z
  if order = "XYZ" then
    let ae := cx * cz
    let af := cx * sz
    let be := sx * cz
    let bf := sx * sz
    let m' := { m with
      e0 := cy * cz, e4 := -(cy * sz), e8 := sy,
      e1 := af + be * sy, e5 := ae - bf * sy, e9 := -(sx * cy),
      e2 := bf - ae * sy, e6 := be + af * sy, e10 := cx * cy }
    (m', .ok m')
  else if order = "YXZ" then
    let ce := cy * cz
    let cf := cy * sz
    let de := sy * cz
    let df := sy * sz
    let m' := { m with
      e0 := ce + df * sx, e4 := de * sx - cf, e8 := cx * sy,
      e1 := cx * sz, e5 := cx * cz, e9 := -sx,
      e2 := cf * sx - de, e6 := df + ce * sx, e10 := cx * cy }
    (m', .ok m')
  else if order = "ZXY" then
    let ce := cy * cz
    let cf := cy * sz
    let de := sy * cz
    let df := sy * sz
    let m' := { m with
      e0 := ce - df * sx, e4 := -(cx * sz), e8 := de + cf * sx,
      e1 := cf + de * sx, e5 := cx * cz, e9 := df - ce * sx,
      e2 := -(cx * sy), e6 := sx, e10 := cx * cy }
    (m', .ok m')
  else if order = "ZYX" then
    let ae := cx * cz
    let af := cx * sz
    let be := sx * cz
    let bf := sx * sz
    let m' := { m with
      e0 := cy * cz, e4 := be * sy - af, e8 := ae * sy + bf,
      e1 := cy * sz, e5 := bf * sy + ae, e9 := af * sy - be,
      e2 := -sy, e6 := sx * cy, e10 := cx * cy }
    (m', .ok m')
  else if order = "YZX" then
    let ac := cx * cy
    let ad := cx * sy
    let bc := sx * cy
    let bd := sx * sy
    let m' := { m with
      e0 := cy * cz, e4 := bd - ac * sz, e8 := bc * sz + ad,
      e1 := sz, e5 := cx * cz, e9 := -(sx * cz),
      e2 := -(sy * cz), e6 := ad * sz + bc, e10 := ac - bd * sz }
    (m', .ok m')
  else if order = "ZYZ" then
    if sy = 0 then
      let m' := { m with
        e0 := cx * cz - sx * sz, e4 := -(cz * sx) - cx * sz,
        e1 := cz * sx + cx * sz, e5 := cx * cz - sx * sz }
      (m', .ok m')
    else if round sy 4 = 3.1416 then
      let m' := { m with
        e0 := -(cx * cz) - sx * sz, e4 := -(cz * sx) + cx * sz,
        e1 := -(cz * sx) + cx * sz, e5 := cx * cz + sx * sz }
      (m', .ok m')
    else
      let m' := { m with
        e0 := cx * cy * cz - sx * sz, e4 := -(cz * sx) - cy * cx * sz,
        e8 := cx * sy,
        e1 := sx * cy * cz + cx * sz, e5 := cx * cz - cy * sx * sz,
        e9 := sx * sy,
        e2 := -(sy * cz), e6 := sy * sz, e10 := cy }
      (m', .ok m')
  else if order = "XZY" then
    let ac := cx * cy
    let ad := cx * sy
    let bc := sx * cy
    let bd := sx * sy
    let m' := { m with
      e0 := cy * cz, e4 := bd - ac * sz, e8 := bc * sz + ad,
      e1 := sz, e5 := cx * cz, e9 := -(sx * cz),
      e2 := -(sy * cz), e6 := ad * sz + bc, e10 := ac - bd * sz }
    (m', .ok m')
  else
    (m, .error ("Unrecognized order " ++ order))

/-- `setRotationFromQuaternion`: the standard quaternion-to-matrix
expansion, writing elements 0,1,2,4,5,6,8,9,10 and returning the receiver. -/
def setRotationFromQuaternion (m : Matrix) (x y z w : ℝ) : Matrix :=
  let x2 := x + x
  let y2 := y + y
  let z2 := z + z
  let xx := x * x2
  let xy := x * y2
  let xz := x * z2
  let yy := y * y2
  let yz := y * z2
  let zz := z * z2
  let wx := w * x2
  let wy := w * y2
  let wz := w * z2
  { m with
    e0 := 1 - (yy + zz), e1 := xy + wz, e2 := xz - wy,
    e4 := xy - wz, e5 := 1 - (xx + zz), e6 := yz + wx,
    e8 := xz + wy, e9 := yz - wx, e10 := 1 - (xx + yy) }

/-- `multiplied`: a new matrix holding the product `this · m` (row-by-column
dot products in column-major layout; `aij`/`bij` read exactly the source's
array indices, with `ae[i]`/`be[i]` as the field `ei`). -/
def multiplied (a b : Matrix) : Matrix :=
  let a11 := a.e0
  let a12 := a.e4
  let a13 := a.e8
  let a14 := a.e12
  let a21 := a.e1
  let a22 := a.e5
  let a23 := a.e9
  let a24 := a.e13
  let a31 := a.e2
  let a32 := a.e6
  let a33 := a.e10
  let a34 := a.e14
  let a41 := a.e3
  let a42 := a.e7
  let a43 := a.e11
  let a44 := a.e15
  let b11 := b.e0
  let b12 := b.e4
  let b13 := b.e8
  let b14 := b.e12
  let b21 := b.e1
  let b22 := b.e5
  let b23 := b.e9
  let b24 := b.e13
  let b31 := b.e2
  let b32 := b.e6
  let b33 := b.e10
  let b34 := b.e14
  let b41 := b.e3
  let b42 := b.e7
  let b43 := b.e11
  let b44 := b.e15
  ⟨a11 * b11 + a12 * b21 + a13 * b31 + a14 * b41,
   a21 * b11 + a22 * b21 + a23 * b31 + a24 * b41,
   a31 * b11 + a32 * b21 + a33 * b31 + a34 * b41,
   a41 * b11 + a42 * b21 + a43 * b31 + a44 * b41,
   a11 * b12 + a12 * b22 + a13 * b32 + a14 * b42,
   a21 * b12 + a22 * b22 + a23 * b32 + a24 * b42,
   a31 * b12 + a32 * b22 + a33 * b32 + a34 * b42,
   a41 * b12 + a42 * b22 + a43 * b32 + a44 * b42,
   a11 * b13 + a12 * b23 + a13 * b33 + a14 * b43,
   a21 * b13 + a22 * b23 + a23 * b33 + a24 * b43,
   a31 * b13 + a32 * b23 + a33 * b33 + a34 * b43,
   a41 * b13 + a42 * b23 + a43 * b33 + a44 * b43,
   a11 * b14 + a12 * b24 + a13 * b34 + a14 * b44,
   a21 * b14 + a22 * b24 + a23 * b34 + a24 * b44,
   a31 * b14 + a32 * b24 + a33 * b34 + a34 * b44,
   a41 * b14 + a42 * b24 + a43 * b34 + a44 * b44⟩

/-- `multiply` (alias `transform`): mutate the receiver to the product. -/
def multiply (a b : Matrix) : Matrix := setFromMatrixArray a (multiplied a b).toArray

/-- `toQuaternion`: branch-on-trace extraction of an XYZW quaternion from
the rotation block. -/
def toQuaternion (m : Matrix) : ℝ × ℝ × ℝ × ℝ :=
  let m11 := m.e0
  let m12 := m.e4
  let m13 := m.e8
  let m21 := m.e1
  let m22 := m.e5
  let m23 := m.e9
  let m31 := m.e2
  let m32 := m.e6
  let m33 := m.e10
  let trace := m11 + m22 + m33
  if trace > 0 then
    let s := 0.5 / Real.sqrt (trace + 1.0)
    ((m32 - m23) * s, (m13 - m31) * s, (m21 - m12) * s, 0.25 / s)
  else if m11 > m22 ∧ m11 > m33 then
    let s := 2.0 * Real.sqrt (1.0 + m11 - m22 - m33)
    (0.25 * s, (m12 + m21) / s, (m13 + m31) / s, (m32 - m23) / s)
  else if m22 > m33 then
    let s := 2.0 * Real.sqrt (1.0 + m22 - m11 - m33)
    ((m12 + m21) / s, 0.25 * s, (m23 + m32) / s, (m13 - m31) / s)
  else
    let s := 2.0 * Real.sqrt (1.0 + m33 - m11 - m22)
    ((m13 + m31) / s, (m23 + m32) / s, 0.25 * s, (m21 - m12) / s)

/-- `applyQuaternion`: read the receiver's quaternion, Hamilton-multiply it
by the argument quaternion and build a **new** matrix from the product via
`setRotationFromQuaternion` on a fresh identity.  The receiver is never
assigned to, so the pair's first component (receiver after the call) is the
input state. -/
def applyQuaternion (m : Matrix) (x y z w : ℝ) : Matrix × Matrix :=
  let a := m.toQuaternion
  let qax := a.1
  let qay := a.2.1
  let qaz := a.2.2.1
  let qaw := a.2.2.2
  let nx := qax * w + qaw * x + qay * z - qaz * y
  let ny := qay * w + qaw * y + qaz * x - qax * z
  let nz := qaz * w + qaw * z + qax * y - qay * x
  let nw := qaw * w - qax * x - qay * y - qaz * z
  (m, setRotationFromQuaternion identity nx ny nz nw)

/-- `rotated`: quaternion of a fresh Euler-built matrix, applied to a clone
of the receiver; propagates `setRotation`'s error on a bad order. -/
def rotated (m : Matrix) (x y z : ℝ) (order : String) : Except String Matrix :=
  match (setRotation identity x y z order).2 with
  | .error e => .error e
  | .ok mq =>
    let q := mq.toQuaternion
    .ok (applyQuaternion m.clone q.1 q.2.1 q.2.2.1 q.2.2.2).2

/-- `rotate`: quaternion of a fresh Euler-built matrix, then
`this.applyQuaternion(...)` — whose returned matrix the source discards —
then `return this`.  The receiver after the call is `applyQuaternion`'s
receiver-after state. -/
def rotate (m : Matrix) (x y z : ℝ) (order : String) :
    Matrix × Except String Matrix :=
  match (setRotation identity x y z order).2 with
  | .error e => (m, .error e)
  | .ok mq =>
    let q := mq.toQuaternion
    let r := applyQuaternion m q.1 q.2.1 q.2.2.1 q.2.2.2
    (r.1, .ok r.1)

/-- `toEuler`: per-order closed-form extraction of Euler angles, returned in
degrees; never assigns to the receiver, so the pair's first component is the
input state. -/
def toEuler (m : Matrix) (order : String) :
    Matrix × Except String (ℝ × ℝ × ℝ) :=
  let m11 := m.e0
  let m12 := m.e4
  let m13 := m.e8
  let m21 := m.e1
  let m22 := m.e5
  let m23 := m.e9
  let m31 := m.e2
  let m32 := m.e6
  let m33 := m.e10
  if order = "XYZ" then
    let y := Real.arcsin (clamp m13 (-1) 1)
    if |m13| < 0.9999999 then
      (m, .ok (degrees (atan2 (-m23) m33), degrees y, degrees (atan2 (-m12) m11)))
    else
      (m, .ok (degrees (atan2 m32 m22), degrees y, degrees 0))
  else if order = "YXZ" then
    let x := Real.arcsin (-clamp m23 (-1) 1)
    if |m23| < 0.9999999 then
      (m, .ok (degrees x, degrees (atan2 m13 m33), degrees (atan2 m21 m22)))
    else
      (m, .ok (degrees x, degrees (atan2 (-m31) m11), degrees 0))
  else if order = "ZXY" then
    let x := Real.arcsin (clamp m32 (-1) 1)
    if |m32| < 0.9999999 then
      (m, .ok (degrees x, degrees (atan2 (-m31) m33), degrees (atan2 (-m12) m22)))
    else
      (m, .ok (degrees x, degrees 0, degrees (atan2 m21 m11)))
  else if order = "ZYX" then
    let y := Real.arcsin (-clamp m31 (-1) 1)
    if |m31| < 0.9999999 then
      (m, .ok (degrees (atan2 m32 m33), degrees y, degrees (atan2 m21 m11)))
    else
      (m, .ok (degrees 0, degrees y, degrees (atan2 (-m12) m22)))
  else if order = "YZX" then
    let z := Real.arcsin (clamp m21 (-1) 1)
    if |m21| < 0.9999999 then
      (m, .ok (degrees (atan2 (-m23) m22), degrees (atan2 (-m31) m11), degrees z))
    else
      (m, .ok (degrees 0, degrees (atan2 m13 m33), degrees z))
  else if order = "XZY" then
    let z := Real.arcsin (-clamp m12 (-1) 1)
    if |m12| < 0.9999999 then
      (m, .ok (degrees (atan2 m32 m22), degrees (atan2 m13 m11), degrees z))
    else
      (m, .ok (degrees (atan2 (-m23) m33), degrees 0, degrees z))
  else if order = "ZYZ" then
    if m33 < 1 then
      if m33 > -1 then
        (m, .ok (degrees (atan2 m23 m13), degrees (Real.arccos m33),
                 degrees (atan2 m32 (-m31))))
      else
        (m, .ok (degrees (-(atan2 m21 m22)), degrees Real.pi, degrees 0))
    else
      (m, .ok (degrees (atan2 m21 m22), degrees 0, degrees 0))
  else
    (m, .error "Invalid euler order.")

/-- `toMatrix3` (exposed as `to3x3`): the literal 9-entry array the source
builds, slots 6 and 7 re-reading elements 2 and 6. -/
def toMatrix3 (m : Matrix) : List ℝ :=
  [m.e0, m.e1, m.e2,
   m.e4, m.e5, m.e6,
   m.e2, m.e6, m.e10]

end Matrix

/-- Third component of an extracted Euler triple (0 on error); used only to
state theorems about `toEuler` results. -/
def thirdAngle : Except String (ℝ × ℝ × ℝ) → ℝ
  | .ok (_, _, c) => c
  | .error _ => 0

/-- The matrix inside an `Except` result, or the fallback on error; used
only to state theorems. -/
def okOr (d : Matrix) : Except String Matrix → Matrix
  | .ok a => a
  | .error _ => d

end

end TMJS

open TMJS

theorem sqrtFour : Real.sqrt 4 = 2 := by
  rw [show (4 : ℝ) = 2 ^ 2 by norm_num, Real.sqrt_sq (by norm_num : (0 : ℝ) ≤ 2)]

theorem radiansZero : radians 0 = 0 := by unfold radians; ring

theorem radians180 : radians 180 = Real.pi := by unfold radians; ring

theorem radians30 : radians 30 = Real.pi / 6 := by unfold radians; ring

theorem radians45 : radians 45 = Real.pi / 4 := by unfold radians; ring

theorem degreesZero : degrees 0 = 0 := by unfold degrees; ring

theorem clampZero : clamp 0 (-1) 1 = 0 := by
  unfold clamp
  rw [min_eq_right (by norm_num : (0 : ℝ) ≤ 1),
    max_eq_right (by norm_num : (-1 : ℝ) ≤ 0)]

theorem atan2ZeroOne : atan2 0 1 = 0 := by
  unfold atan2
  rw [if_pos (by norm_num : (0 : ℝ) < 1)]
  norm_num [Real.arctan_zero]

theorem sqrt3MulSqrt2 : Real.sqrt 3 * Real.sqrt 2 = Real.sqrt 6 := by
  rw [← Real.sqrt_mul (by norm_num : (0 : ℝ) ≤ 3)]; norm_num

/-- C6: a freshly constructed (identity) matrix extracts the Euler triple
(0, 0, 0) under every one of the seven supported orders, and the quaternion
(0, 0, 0, 1). -/
theorem identity_toEuler_toQuaternion :
    (TMJS.Matrix.identity.toEuler "XYZ").2 = Except.ok (0, 0, 0) ∧
    (TMJS.Matrix.identity.toEuler "YXZ").2 = Except.ok (0, 0, 0) ∧
    (TMJS.Matrix.identity.toEuler "ZXY").2 = Except.ok (0, 0, 0) ∧
    (TMJS.Matrix.identity.toEuler "ZYX").2 = Except.ok (0, 0, 0) ∧
    (TMJS.Matrix.identity.toEuler "YZX").2 = Except.ok (0, 0, 0) ∧
    (TMJS.Matrix.identity.toEuler "XZY").2 = Except.ok (0, 0, 0) ∧
    (TMJS.Matrix.identity.toEuler "ZYZ").2 = Except.ok (0, 0, 0) ∧
    TMJS.Matrix.identity.toQuaternion = (0, 0, 0, 1) := by
  refine ⟨?_, ?_, ?_, ?_, ?_, ?_, ?_, ?_⟩ <;>
    norm_num [TMJS.Matrix.toEuler, TMJS.Matrix.toQuaternion, TMJS.Matrix.identity,
      clampZero, atan2ZeroOne, degreesZero, sqrtFour, Real.arcsin_zero]

theorem jsRoundSinLt (y : ℝ) : TMJS.round (Real.sin y) 4 < 3.1416 := by
  unfold TMJS.round TMJS.jsMathRound
  rw [div_lt_iff₀ (by norm_num : (0 : ℝ) < 10 ^ 4)]
  calc ((⌊Real.sin y * 10 ^ 4 + 1 / 2⌋ : ℤ) : ℝ)
      ≤ Real.sin y * 10 ^ 4 + 1 / 2 := Int.floor_le _
    _ < 3.1416 * 10 ^ 4 := by nlinarith [Real.sin_le_one y]

/-- C3: the `"ZYZ"` gimbal detector `round(sy, 4) === 3.1416` tests the
*sine* of `y`, which lies in `[-1, 1]`, so it can never equal 3.1416: the
second degenerate branch is dead code.  In particular at y = 179.99999° the
general branch runs and overwrites element 10 (with cos y < 0), contrary to
the claim that only elements 0, 1, 4, 5 are written. -/
theorem setRotation_ZYZ_pi_detector_dead :
    (∀ y : ℝ, TMJS.round (Real.sin y) 4 < 3.1416) ∧
    (TMJS.Matrix.identity.setRotation 0 179.99999 0 "ZYZ").1.e10 <
      TMJS.Matrix.identity.e10 := by
  refine ⟨jsRoundSinLt, ?_⟩
  have h0 : 0 < radians 179.99999 := by unfold radians; positivity
  have hpi : radians 179.99999 < Real.pi := by unfold radians; nlinarith [Real.pi_pos]
  have hsin : 0 < Real.sin (radians 179.99999) :=
    Real.sin_pos_of_pos_of_lt_pi h0 hpi
  have hcos : Real.cos (radians 179.99999) < 0 :=
    Real.cos_neg_of_pi_div_two_lt_of_lt
      (by unfold radians; nlinarith [Real.pi_pos])
      (by linarith [Real.pi_pos])
  have key : (TMJS.Matrix.identity.setRotation 0 179.99999 0 "ZYZ").1.e10 =
      Real.cos (radians 179.99999) := by
    simp [TMJS.Matrix.setRotation, hsin.ne',
      (jsRoundSinLt (radians 179.99999)).ne]
  rw [key, show TMJS.Matrix.identity.e10 = 1 from rfl]
  linarith [hcos]

theorem thirdAngle_toEuler_XZY (m : TMJS.Matrix) :
    thirdAngle (m.toEuler "XZY").2 =
      degrees (Real.arcsin (-clamp m.e4 (-1) 1)) := by
  by_cases h : |m.e4| < 0.9999999 <;>
    simp [TMJS.Matrix.toEuler, h, thirdAngle]

/-- C2: the Euler round-trip fails for order `"XZY"` at the non-degenerate
angles (30°, 45°, 30°): `setRotation`'s `"XZY"` branch builds the `"YZX"`
matrix, so `toEuler("XZY")` extracts a *negative* z-angle instead of 30°,
far outside the 1e-4-degree tolerance. -/
theorem setRotation_toEuler_XZY_roundtrip_fails :
    thirdAngle ((TMJS.okOr TMJS.Matrix.identity
        (TMJS.Matrix.identity.setRotation 30 45 30 "XZY").2).toEuler "XZY").2 < 0 ∧
    1 / 10000 <
      |thirdAngle ((TMJS.okOr TMJS.Matrix.identity
          (TMJS.Matrix.identity.setRotation 30 45 30 "XZY").2).toEuler "XZY").2 - 30| := by
  have hv0 : 0 < Real.sqrt 2 / 4 - Real.sqrt 6 / 8 := by
    nlinarith [Real.sq_sqrt (show (0 : ℝ) ≤ 2 by norm_num),
      Real.sq_sqrt (show (0 : ℝ) ≤ 6 by norm_num),
      Real.sqrt_nonneg 2, Real.sqrt_nonneg 6]
  have hv1 : Real.sqrt 2 / 4 - Real.sqrt 6 / 8 < 1 := by
    nlinarith [Real.sq_sqrt (show (0 : ℝ) ≤ 2 by norm_num),
      Real.sq_sqrt (show (0 : ℝ) ≤ 6 by norm_num),
      Real.sqrt_nonneg 2, Real.sqrt_nonneg 6]
  have hMe4 : (TMJS.okOr TMJS.Matrix.identity
      (TMJS.Matrix.identity.setRotation 30 45 30 "XZY").2).e4 =
      Real.sqrt 2 / 4 - Real.sqrt 6 / 8 := by
    simp [TMJS.Matrix.setRotation, TMJS.okOr, radians30, radians45,
      Real.sin_pi_div_six, Real.cos_pi_div_six,
      Real.sin_pi_div_four, Real.cos_pi_div_four]
    rw [← sqrt3MulSqrt2]; ring
  have hclamp : clamp (Real.sqrt 2 / 4 - Real.sqrt 6 / 8) (-1) 1 =
      Real.sqrt 2 / 4 - Real.sqrt 6 / 8 := by
    unfold clamp
    rw [min_eq_right hv1.le, max_eq_right (by linarith)]
  have harc : 0 < Real.arcsin (Real.sqrt 2 / 4 - Real.sqrt 6 / 8) :=
    Real.arcsin_pos.mpr hv0
  have hz : thirdAngle ((TMJS.okOr TMJS.Matrix.identity
      (TMJS.Matrix.identity.setRotation 30 45 30 "XZY").2).toEuler "XZY").2 =
      degrees (-Real.arcsin (Real.sqrt 2 / 4 - Real.sqrt 6 / 8)) := by
    rw [thirdAngle_toEuler_XZY, hMe4, hclamp, Real.arcsin_neg]
  have hneg : thirdAngle ((TMJS.okOr TMJS.Matrix.identity
      (TMJS.Matrix.identity.setRotation 30 45 30 "XZY").2).toEuler "XZY").2 < 0 := by
    rw [hz]; unfold degrees
    exact mul_neg_of_neg_of_pos (by linarith)
      (div_pos (by norm_num) Real.pi_pos)
  refine ⟨hneg, ?_⟩
  rw [abs_of_neg (by linarith)]
  linarith

theorem cloneIdentity : TMJS.Matrix.identity.clone = TMJS.Matrix.identity := rfl

/-- C1: `rotate(180, 0, 0, "XYZ")` on the identity matrix leaves the
receiver completely unchanged and returns it — the matrix built by
`this.applyQuaternion(...)` is discarded — whereas the applyQuaternion
result the claim says the receiver becomes (the `rotated` output) has
element 5 = −1 < 1. -/
theorem rotate_discards_applyQuaternion_result :
    (TMJS.Matrix.identity.rotate 180 0 0 "XYZ").1 = TMJS.Matrix.identity ∧
    (TMJS.Matrix.identity.rotate 180 0 0 "XYZ").2 = Except.ok TMJS.Matrix.identity ∧
    (TMJS.okOr TMJS.Matrix.identity
        (TMJS.Matrix.identity.rotated 180 0 0 "XYZ")).e5 < TMJS.Matrix.identity.e5 := by
  refine ⟨rfl, rfl, ?_⟩
  have hM : (TMJS.Matrix.identity.setRotation 180 0 0 "XYZ").2 =
      Except.ok (⟨1, 0, 0, 0, 0, -1, 0, 0, 0, 0, -1, 0, 0, 0, 0, 1⟩ : TMJS.Matrix) := by
    norm_num [TMJS.Matrix.setRotation, TMJS.Matrix.identity, radians180, radiansZero,
      Real.cos_pi, Real.sin_pi]
  have htq : TMJS.Matrix.toQuaternion
      (⟨1, 0, 0, 0, 0, -1, 0, 0, 0, 0, -1, 0, 0, 0, 0, 1⟩ : TMJS.Matrix) =
      (1, 0, 0, 0) := by
    norm_num [TMJS.Matrix.toQuaternion, sqrtFour]
  have hiq : TMJS.Matrix.identity.toQuaternion = (0, 0, 0, 1) := by
    norm_num [TMJS.Matrix.toQuaternion, TMJS.Matrix.identity, sqrtFour]
  have hrot : TMJS.okOr TMJS.Matrix.identity
      (TMJS.Matrix.identity.rotated 180 0 0 "XYZ") =
      TMJS.Matrix.setRotationFromQuaternion TMJS.Matrix.identity 1 0 0 0 := by
    simp only [TMJS.Matrix.rotated, hM, htq, cloneIdentity,
      TMJS.Matrix.applyQuaternion, hiq, TMJS.okOr]
    norm_num
  rw [hrot, show TMJS.Matrix.identity.e5 = 1 from rfl]
  norm_num [TMJS.Matrix.setRotationFromQuaternion]

/-- C10: for every matrix `m`, `to3x3()`/`toMatrix3()` returns exactly the
list `[m[0], m[1], m[2], m[4], m[5], m[6], m[2], m[6], m[10]]`. -/
theorem toMatrix3_exact_contract (m : TMJS.Matrix) :
    m.toMatrix3 = [m.e0, m.e1, m.e2, m.e4, m.e5, m.e6, m.e2, m.e6, m.e10] := rfl

/-- C8 (counterexample): on the matrix with element 2 = 0.5 and element 10 =
0.8, the index-8 entry of `toMatrix3` is 0.8 — element 10, not element 2 as
the claim states (the duplication artifact sits at index 6, not index 8). -/
theorem toMatrix3_slot8_counterexample :
    (TMJS.Matrix.toMatrix3
        ⟨0, 0, 0.5, 0, 0, 0, 0, 0, 0, 0, 0.8, 0, 0, 0, 0, 1⟩).getD 8 0 = 0.8 ∧
    (0.8 : ℝ) ≠ 0.5 :=
  ⟨rfl, by norm_num⟩

/-- C8 (amended): for every matrix whose elements 2 and 10 differ, the
index-8 entry of `toMatrix3` equals element 10 (not element 2), while the
duplication artifact puts element 2 at index 6. -/
theorem toMatrix3_slot8_is_element10 (m : TMJS.Matrix) (h : m.e2 ≠ m.e10) :
    m.toMatrix3.getD 8 0 = m.e10 ∧
    m.toMatrix3.getD 8 0 ≠ m.e2 ∧
    m.toMatrix3.getD 6 0 = m.e2 := by
  refine ⟨rfl, ?_, rfl⟩
  show m.e10 ≠ m.e2
  exact fun hc => h hc.symm

/-- C8 (witness): the amended statement instantiated at the matrix with
element 2 = 0.5 and element 10 = 0.8. -/
theorem toMatrix3_slot8_is_element10_witness :
    ((0.5 : ℝ) ≠ (0.8 : ℝ)) ∧
    ((TMJS.Matrix.toMatrix3
        ⟨0, 0, 0.5, 0, 0, 0, 0, 0, 0, 0, 0.8, 0, 0, 0, 0, 1⟩).getD 8 0 = 0.8 ∧
     (TMJS.Matrix.toMatrix3
        ⟨0, 0, 0.5, 0, 0, 0, 0, 0, 0, 0, 0.8, 0, 0, 0, 0, 1⟩).getD 8 0 ≠ 0.5 ∧
     (TMJS.Matrix.toMatrix3
        ⟨0, 0, 0.5, 0, 0, 0, 0, 0, 0, 0, 0.8, 0, 0, 0, 0, 1⟩).getD 6 0 = 0.5) :=
  ⟨by norm_num,
   toMatrix3_slot8_is_element10
     ⟨0, 0, 0.5, 0, 0, 0, 0, 0, 0, 0, 0.8, 0, 0, 0, 0, 1⟩ (by norm_num)⟩

/-- C9: `applyQuaternion` leaves the receiver's sixteen elements unchanged,
and its freshly built result has translation elements 12, 13, 14 equal to 0
and bottom row (3, 7, 11, 15) equal to (0, 0, 0, 1): a pure-rotation
matrix. -/
theorem applyQuaternion_frame_and_pure_rotation (m : TMJS.Matrix) (x y z w : ℝ) :
    (m.applyQuaternion x y z w).1 = m ∧
    (m.applyQuaternion x y z w).2.e12 = 0 ∧
    (m.applyQuaternion x y z w).2.e13 = 0 ∧
    (m.applyQuaternion x y z w).2.e14 = 0 ∧
    (m.applyQuaternion x y z w).2.e3 = 0 ∧
    (m.applyQuaternion x y z w).2.e7 = 0 ∧
    (m.applyQuaternion x y z w).2.e11 = 0 ∧
    (m.applyQuaternion x y z w).2.e15 = 1 :=
  ⟨rfl, rfl, rfl, rfl, rfl, rfl, rfl, rfl⟩

/-- C7: multiplying by the identity matrix on either side reproduces the
matrix elementwise. -/
theorem multiplied_identity_law (m : TMJS.Matrix) :
    m.multiplied TMJS.Matrix.identity = m ∧
    TMJS.Matrix.identity.multiplied m = m := by
  constructor <;>
    · ext <;> simp [TMJS.Matrix.multiplied, TMJS.Matrix.identity]

/-- C4: the `"XZY"` branch of `setRotation` is element-for-element the same
computation as the `"YZX"` branch, so both orders produce the identical
receiver state and return value. -/
theorem setRotation_XZY_copies_YZX (m : TMJS.Matrix) (x y z : ℝ) :
    m.setRotation x y z "XZY" = m.setRotation x y z "YZX" := rfl

/-- C5 (counterexample): two distinct unsupported orders make `toEuler` fail
with the identical fixed message `"Invalid euler order."`, so its error does
not identify the offending order, contrary to the claim. -/
theorem toEuler_error_does_not_identify_order :
    (TMJS.Matrix.identity.toEuler "BAD").2 = Except.error "Invalid euler order." ∧
    (TMJS.Matrix.identity.toEuler "WORSE").2 = Except.error "Invalid euler order." ∧
    ("BAD" : String) ≠ "WORSE" :=
  ⟨rfl, rfl, by decide⟩

/-- C5 (amended): for every order outside the seven supported ones, both
`setRotation` and `toEuler` fail leaving all sixteen elements unchanged;
`setRotation`'s error names the offending order, while `toEuler`'s error is
the fixed message `"Invalid euler order."`. -/
theorem invalid_order_errors_no_mutation (m : TMJS.Matrix) (x y z : ℝ)
    (o : String)
    (h : o ∉ (["XYZ", "YXZ", "ZXY", "ZYX", "YZX", "ZYZ", "XZY"] : List String)) :
    (m.setRotation x y z o).1 = m ∧
    (m.setRotation x y z o).2 = Except.error ("Unrecognized order " ++ o) ∧
    (m.toEuler o).1 = m ∧
    (m.toEuler o).2 = Except.error "Invalid euler order." := by
  simp only [List.mem_cons, List.not_mem_nil, or_false, not_or] at h
  obtain ⟨h1, h2, h3, h4, h5, h6, h7⟩ := h
  refine ⟨?_, ?_, ?_, ?_⟩ <;>
    simp [TMJS.Matrix.setRotation, TMJS.Matrix.toEuler, h1, h2, h3, h4, h5, h6, h7]

/-- C5 (witness): the amended statement instantiated at order `"BAD"` on the
identity matrix. -/
theorem invalid_order_errors_no_mutation_witness :
    (("BAD" : String) ∉ (["XYZ", "YXZ", "ZXY", "ZYX", "YZX", "ZYZ", "XZY"] : List String)) ∧
    ((TMJS.Matrix.identity.setRotation 0 0 0 "BAD").1 = TMJS.Matrix.identity ∧
     (TMJS.Matrix.identity.setRotation 0 0 0 "BAD").2 =
       Except.error ("Unrecognized order " ++ "BAD") ∧
     (TMJS.Matrix.identity.toEuler "BAD").1 = TMJS.Matrix.identity ∧
     (TMJS.Matrix.identity.toEuler "BAD").2 = Except.error "Invalid euler order.") :=
  ⟨by decide, invalid_order_errors_no_mutation TMJS.Matrix.identity 0 0 0 "BAD" (by decide)⟩
